import Mathlib

/-!
Shallow embedding of the cyclic PLC control engine
(`src/plc_simulator.py`, `src/plc_utils.py`, `src/plc_alarm_logic.py`,
`src/plc_io_definitions.py`): the alarm subsystem (activation,
acknowledgement, priority arbitration), the GRAFCET-style process state
machine, and one iteration of the scan cycle.

Digital signals are Booleans; the analog temperature is a rational.
Mutation of the simulator object is modelled by explicit state passing:
each Python method that mutates `self` becomes a function
`PLCState → ... → PLCState`.
-/

/-- Alarm identifiers (`Alarms` enum in `plc_alarm_logic.py`). -/
inductive Alarms where
  | TANK_TOO_HIGH
  | TANK_TOO_LOW
  | TEMP_TOO_HIGH
  | TEMP_TOO_LOW
  | DOOR_OPEN
  | ES_PRESSED
  deriving DecidableEq, Repr, Fintype

/-- Process steps (`Steps` enum in `plc_utils.py`). -/
inductive Steps where
  | STOP
  | PREFILLING
  | INITIALISED
  | FILLING
  | HEATING
  | DISCHARGING_VALVE
  | ERROR_A0
  | ERROR_A1
  | ERROR_A2
  | ERROR_A3
  | ERROR_A4
  | ERROR_A5
  deriving DecidableEq, Repr

/-- One alarm's register triple (`{"Active": _, "UnAck": _, "Status": _}`). -/
structure AlarmState where
  active : Bool
  unack : Bool
  status : Bool
  deriving DecidableEq, Repr

/-- The six alarm registers (the `self.alarms` dict). -/
structure AlarmSet where
  tank_too_high : AlarmState
  tank_too_low : AlarmState
  temp_too_high : AlarmState
  temp_too_low : AlarmState
  door_open : AlarmState
  es_pressed : AlarmState
  deriving DecidableEq, Repr

/-- Dictionary lookup `self.alarms[key]`. -/
def AlarmSet.get (A : AlarmSet) : Alarms → AlarmState
  | Alarms.TANK_TOO_HIGH => A.tank_too_high
  | Alarms.TANK_TOO_LOW => A.tank_too_low
  | Alarms.TEMP_TOO_HIGH => A.temp_too_high
  | Alarms.TEMP_TOO_LOW => A.temp_too_low
  | Alarms.DOOR_OPEN => A.door_open
  | Alarms.ES_PRESSED => A.es_pressed

/-- The per-cycle input snapshot (`self.digital_inputs` and
`self.analog_inputs` after `update_inputs`). -/
structure Inputs where
  start_button : Bool
  run_button : Bool
  stop_button : Bool
  es_button : Bool
  rst_button : Bool
  ll_lvl_sensor : Bool
  l_lvl_sensor : Bool
  h_lvl_sensor : Bool
  hh_lvl_sensor : Bool
  discharg_gt_closed : Bool
  temperature : ℚ
  deriving DecidableEq, Repr

/-- The digital output registers (`self.digital_outputs`). -/
structure DOut where
  filling_valve_open : Bool
  discharging_valve_open : Bool
  heating_on : Bool
  discharging_gate_open : Bool
  deriving DecidableEq, Repr

/-- The mutable simulator state carried across scan cycles. -/
structure PLCState where
  alarms : AlarmSet
  step : Steps
  last_low_low_sensor_state : Bool
  trip : Bool
  outputs : DOut
  deriving DecidableEq, Repr

def DESIRED_TEMPERATURE : ℚ := 45
def MAX_TEMPERATURE : ℚ := 80
def MIN_TEMPERATURE : ℚ := 10

/-- `self.map_alarm_to_step`. -/
def map_alarm_to_step : Alarms → Steps
  | Alarms.TANK_TOO_HIGH => Steps.ERROR_A0
  | Alarms.TANK_TOO_LOW => Steps.ERROR_A1
  | Alarms.TEMP_TOO_HIGH => Steps.ERROR_A2
  | Alarms.TEMP_TOO_LOW => Steps.ERROR_A3
  | Alarms.DOOR_OPEN => Steps.ERROR_A4
  | Alarms.ES_PRESSED => Steps.ERROR_A5

/-- `self.alarms_priority_order` (highest priority first). -/
def alarms_priority_order : List Alarms :=
  [Alarms.ES_PRESSED, Alarms.TANK_TOO_HIGH, Alarms.TEMP_TOO_HIGH,
   Alarms.TANK_TOO_LOW, Alarms.TEMP_TOO_LOW, Alarms.DOOR_OPEN]

/-- Write a new `Active` value into one alarm register
(the assignment `self.alarms[K]["Active"] = ...`). -/
def upd_active (a : AlarmState) (b : Bool) : AlarmState :=
  { a with active := b }

/-- One alarm's part of `reset_alarms`: clear `UnAck` and `Status`,
leave `Active`. -/
def reset_one (a : AlarmState) : AlarmState :=
  { a with unack := false, status := false }

/-- One alarm's part of `set_alarms`: if `Active`, force `UnAck` and
`Status` to `True`; otherwise leave the register unchanged. -/
def set_one (a : AlarmState) : AlarmState :=
  if a.active then { a with unack := true, status := true } else a

/-- `PLCSimulator.update_alarms_active_state`: recompute every alarm's
`Active` from the current input snapshot, then store the current
low-low reading into `self.last_low_low_sensor_state`. -/
def update_alarms_active_state (s : PLCState) (i : Inputs) : PLCState :=
  { s with
    alarms :=
      { tank_too_high := upd_active s.alarms.tank_too_high i.hh_lvl_sensor
        tank_too_low := upd_active s.alarms.tank_too_low
          (s.last_low_low_sensor_state && !i.ll_lvl_sensor)
        temp_too_high := upd_active s.alarms.temp_too_high
          (decide (MAX_TEMPERATURE < i.temperature))
        temp_too_low := upd_active s.alarms.temp_too_low
          (decide (i.temperature < MIN_TEMPERATURE))
        door_open := upd_active s.alarms.door_open (!i.discharg_gt_closed)
        es_pressed := upd_active s.alarms.es_pressed i.es_button }
    last_low_low_sensor_state := i.ll_lvl_sensor }

/-- `PLCSimulator.reset_alarms`: clear `UnAck` and `Status` of every alarm. -/
def reset_alarms (s : PLCState) : PLCState :=
  { s with
    alarms :=
      { tank_too_high := reset_one s.alarms.tank_too_high
        tank_too_low := reset_one s.alarms.tank_too_low
        temp_too_high := reset_one s.alarms.temp_too_high
        temp_too_low := reset_one s.alarms.temp_too_low
        door_open := reset_one s.alarms.door_open
        es_pressed := reset_one s.alarms.es_pressed } }

/-- `PLCSimulator.set_alarms` (the register part; the OPC UA writes are
outside the embedded core): for every alarm with `Active` true, force
`UnAck` and `Status` to `True`. -/
def set_alarms (s : PLCState) : PLCState :=
  { s with
    alarms :=
      { tank_too_high := set_one s.alarms.tank_too_high
        tank_too_low := set_one s.alarms.tank_too_low
        temp_too_high := set_one s.alarms.temp_too_high
        temp_too_low := set_one s.alarms.temp_too_low
        door_open := set_one s.alarms.door_open
        es_pressed := set_one s.alarms.es_pressed } }

/-- `PLCSimulator.check_alarms_and_return_most_urgent`: scan the priority
order and return the first alarm whose `Active` entry is true (the Python
loop tests `alarm["Active"]`), or `none`. -/
def check_alarms_and_return_most_urgent (s : PLCState) : Option Alarms :=
  alarms_priority_order.find? (fun a => (s.alarms.get a).active)

/-- The tail of `handle_alarms` (`alarm_id = await check_...; if alarm_id:`):
`if alarm_id:` is true exactly when arbitration returned an identifier,
and then `trip` is set and `step` is mapped; otherwise nothing is
written. -/
def trip_decision (s3 : PLCState) : PLCState :=
  match check_alarms_and_return_most_urgent s3 with
  | some a => { s3 with trip := true, step := map_alarm_to_step a }
  | none => s3

/-- `PLCSimulator.handle_alarms`: optional reset intake, `Active`
recomputation, `UnAck`/`Status` update, arbitration, trip decision. -/
def handle_alarms (s : PLCState) (i : Inputs) : PLCState :=
  trip_decision (set_alarms (update_alarms_active_state
    (if i.rst_button then reset_alarms s else s) i))

/-- `Transitions.start_button_pressed_and_gate_closed`. -/
def start_button_pressed_and_gate_closed (i : Inputs) : Bool :=
  i.start_button && i.discharg_gt_closed

/-- `Transitions.tank_reached_low_level`. -/
def tank_reached_low_level (i : Inputs) : Bool :=
  i.l_lvl_sensor

/-- `Transitions.run_button_pressed`. -/
def run_button_pressed (i : Inputs) : Bool :=
  i.run_button

/-- `Transitions.tank_reached_high_level`. -/
def tank_reached_high_level (i : Inputs) : Bool :=
  i.h_lvl_sensor

/-- `Transitions.temperature_reached_setpoint`. -/
def temperature_reached_setpoint (i : Inputs) : Bool :=
  decide (DESIRED_TEMPERATURE ≤ i.temperature)

/-- `Transitions.tank_back_to_low_level`: the Python body returns the
low-level sensor reading itself (`digital_inputs[L_LVL_SENSOR]`). -/
def tank_back_to_low_level (i : Inputs) : Bool :=
  i.l_lvl_sensor

/-- `Transitions.stop_requested`. -/
def stop_requested (i : Inputs) : Bool :=
  i.stop_button

/-- `PLCCommonOperations.stop_system`: filling valve, heating and
discharging valve off; the gate output is not touched. -/
def stop_system (o : DOut) : DOut :=
  { o with filling_valve_open := false, heating_on := false,
           discharging_valve_open := false }

/-- `PLCCommonOperations.stop_heating_open_gate`. -/
def stop_heating_open_gate (o : DOut) : DOut :=
  { o with heating_on := false, discharging_gate_open := true }

/-- `PLCCommonOperations.stop_fluid_flow_open_gate`. -/
def stop_fluid_flow_open_gate (o : DOut) : DOut :=
  { o with filling_valve_open := false, discharging_gate_open := true }

/-- The GRAFCET branch of `execute_control_logic` (the `if self.trip:`
`... else ...` chain): given the trip flag and step left by
`handle_alarms`, the current outputs and the input snapshot, compute the
step and outputs at the end of the cycle.  Only `step` and the digital
outputs are mutated in this part of the Python loop body. -/
def grafcet (trip : Bool) (step : Steps) (o : DOut) (i : Inputs) :
    Steps × DOut :=
  if trip then
    match step with
    | Steps.ERROR_A0 =>
        (step, { stop_system o with discharging_gate_open := true })
    | Steps.ERROR_A1 => (step, stop_system o)
    | Steps.ERROR_A2 => (step, stop_heating_open_gate o)
    | Steps.ERROR_A3 => (step, stop_fluid_flow_open_gate o)
    | Steps.ERROR_A4 => (step, stop_system o)
    | Steps.ERROR_A5 =>
        (step, { stop_system o with discharging_gate_open := true })
    | _ => (step, o)
  else
    if stop_requested i then (Steps.STOP, stop_system o)
    else
      match step with
      | Steps.STOP =>
          if start_button_pressed_and_gate_closed i then
            (Steps.PREFILLING, o)
          else (step, o)
      | Steps.PREFILLING =>
          if tank_reached_low_level i then
            (Steps.INITIALISED, { o with filling_valve_open := false })
          else (step, { o with filling_valve_open := true })
      | Steps.INITIALISED =>
          if run_button_pressed i then (Steps.FILLING, o) else (step, o)
      | Steps.FILLING =>
          if tank_reached_high_level i then
            (Steps.HEATING, { o with filling_valve_open := false })
          else (step, { o with filling_valve_open := true })
      | Steps.HEATING =>
          if temperature_reached_setpoint i then
            (Steps.DISCHARGING_VALVE, { o with heating_on := false })
          else (step, { o with heating_on := true })
      | Steps.DISCHARGING_VALVE =>
          if tank_back_to_low_level i then
            (Steps.FILLING, { o with discharging_valve_open := false })
          else (step, { o with discharging_valve_open := true })
      | _ => (step, o)

/-- One iteration of the `while True` loop body of
`execute_control_logic` after `update_inputs`: `handle_alarms` followed
by the GRAFCET branch (the OPC UA output write has no effect on the
embedded state). -/
def plc_cycle (s : PLCState) (i : Inputs) : PLCState :=
  let m := handle_alarms s i
  let r := grafcet m.trip m.step m.outputs i
  { m with step := r.1, outputs := r.2 }

/-- The initial state built by `PLCSimulator.__init__`. -/
def init_state : PLCState :=
  { alarms :=
      { tank_too_high := ⟨false, false, false⟩
        tank_too_low := ⟨false, false, false⟩
        temp_too_high := ⟨false, false, false⟩
        temp_too_low := ⟨false, false, false⟩
        door_open := ⟨false, false, false⟩
        es_pressed := ⟨false, false, false⟩ }
    step := Steps.STOP
    last_low_low_sensor_state := false
    trip := false
    outputs :=
      { filling_valve_open := false
        discharging_valve_open := false
        heating_on := false
        discharging_gate_open := true } }

/-- States reachable from the initial state by whole scan cycles. -/
inductive Reachable : PLCState → Prop where
  | init : Reachable init_state
  | step (s : PLCState) (i : Inputs) : Reachable s → Reachable (plc_cycle s i)

/-- The input snapshot with every button and sensor off, gate-closed
sensor true and temperature at the initial 20 °C reading. -/
def idle_inputs : Inputs :=
  { start_button := false
    run_button := false
    stop_button := false
    es_button := false
    rst_button := false
    ll_lvl_sensor := false
    l_lvl_sensor := false
    h_lvl_sensor := false
    hh_lvl_sensor := false
    discharg_gt_closed := true
    temperature := 20 }

/-- Steps 2–3 of the alarm contract run on their own (one round of
"alarm evaluation" with no reset intake):
`set_alarms` after `update_alarms_active_state`. -/
def alarm_eval (s : PLCState) (i : Inputs) : PLCState :=
  set_alarms (update_alarms_active_state s i)

/-! ### Structural lemmas about one cycle -/

theorem trip_decision_alarms (s3 : PLCState) :
    (trip_decision s3).alarms = s3.alarms := by
  unfold trip_decision
  split <;> rfl

theorem trip_decision_last (s3 : PLCState) :
    (trip_decision s3).last_low_low_sensor_state =
      s3.last_low_low_sensor_state := by
  unfold trip_decision
  split <;> rfl

theorem trip_decision_outputs (s3 : PLCState) :
    (trip_decision s3).outputs = s3.outputs := by
  unfold trip_decision
  split <;> rfl

theorem handle_alarms_alarms (s : PLCState) (i : Inputs) :
    (handle_alarms s i).alarms =
      (set_alarms (update_alarms_active_state
        (if i.rst_button then reset_alarms s else s) i)).alarms := by
  unfold handle_alarms
  rw [trip_decision_alarms]

theorem handle_alarms_last (s : PLCState) (i : Inputs) :
    (handle_alarms s i).last_low_low_sensor_state = i.ll_lvl_sensor := by
  unfold handle_alarms
  rw [trip_decision_last]
  cases i.rst_button <;> rfl

theorem handle_alarms_outputs (s : PLCState) (i : Inputs) :
    (handle_alarms s i).outputs = s.outputs := by
  unfold handle_alarms
  rw [trip_decision_outputs]
  cases i.rst_button <;> rfl

theorem plc_cycle_alarms (s : PLCState) (i : Inputs) :
    (plc_cycle s i).alarms = (handle_alarms s i).alarms := rfl

theorem plc_cycle_last (s : PLCState) (i : Inputs) :
    (plc_cycle s i).last_low_low_sensor_state =
      (handle_alarms s i).last_low_low_sensor_state := rfl

theorem plc_cycle_trip (s : PLCState) (i : Inputs) :
    (plc_cycle s i).trip = (handle_alarms s i).trip := rfl

theorem plc_cycle_outputs (s : PLCState) (i : Inputs) :
    (plc_cycle s i).outputs =
      (grafcet (handle_alarms s i).trip (handle_alarms s i).step
        (handle_alarms s i).outputs i).2 := rfl

theorem plc_cycle_step (s : PLCState) (i : Inputs) :
    (plc_cycle s i).step =
      (grafcet (handle_alarms s i).trip (handle_alarms s i).step
        (handle_alarms s i).outputs i).1 := rfl

theorem set_one_active (a : AlarmState) : (set_one a).active = a.active := by
  unfold set_one
  split <;> rfl

/-! ### Claims -/

/-- C1: after per-cycle alarm handling, an arbitration hit sets
`trip := true` and `step` to the mapped error step — but when arbitration
returns `none`, the code leaves `trip` unchanged rather than setting it
to `false`.  Concretely: one cycle with the emergency button pressed
trips the simulator; on the next cycle the button is released and the
reset button is pressed, so at the end of alarm handling every alarm's
`Status` is false and arbitration returns `none`, yet `trip` is still
`true`. -/
theorem C1_trip_not_cleared :
    (∀ a : Alarms,
      ((handle_alarms (plc_cycle init_state
          { idle_inputs with es_button := true })
          { idle_inputs with rst_button := true }).alarms.get a).status
        = false) ∧
    check_alarms_and_return_most_urgent
      (handle_alarms (plc_cycle init_state
        { idle_inputs with es_button := true })
        { idle_inputs with rst_button := true }) = none ∧
    (handle_alarms (plc_cycle init_state
      { idle_inputs with es_button := true })
      { idle_inputs with rst_button := true }).trip = true := by
  decide

/-- C2: a trip is never recovered from.  After an emergency-stop trip,
a successful reset with the triggering condition cleared leaves every
alarm `Status` false, but on the following cycle the simulator still has
`trip = true`, is still in `ERROR_A5`, and still executes the error
branch (actuators forced off, gate forced open) instead of resuming
normal operation from `STOP`. -/
theorem C2_error_branch_not_exited :
    (∀ a : Alarms,
      (((plc_cycle (plc_cycle init_state
          { idle_inputs with es_button := true })
          { idle_inputs with rst_button := true }).alarms.get a).status
        = false)) ∧
    (plc_cycle (plc_cycle (plc_cycle init_state
        { idle_inputs with es_button := true })
        { idle_inputs with rst_button := true }) idle_inputs).trip
      = true ∧
    (plc_cycle (plc_cycle (plc_cycle init_state
        { idle_inputs with es_button := true })
        { idle_inputs with rst_button := true }) idle_inputs).step
      = Steps.ERROR_A5 ∧
    (plc_cycle (plc_cycle (plc_cycle init_state
        { idle_inputs with es_button := true })
        { idle_inputs with rst_button := true }) idle_inputs).outputs
      = { filling_valve_open := false, discharging_valve_open := false,
          heating_on := false, discharging_gate_open := true } := by
  decide

/-- C3: arbitration scans `Active`, not `Status`.  Reachable state: the
emergency button is pressed for one cycle and released the next with no
reset, so the emergency-stop alarm has `Active = false`,
`UnAck = Status = true`; the claimed `Status`-based scan would return
the emergency-stop identifier, but the code returns `none`. -/
theorem C3_arbitration_uses_active :
    ((handle_alarms (plc_cycle init_state
        { idle_inputs with es_button := true })
        idle_inputs).alarms.get Alarms.ES_PRESSED).status = true ∧
    check_alarms_and_return_most_urgent
      (handle_alarms (plc_cycle init_state
        { idle_inputs with es_button := true }) idle_inputs) = none := by
  decide

/-- C4: the `DischargingValve` transition is inverted.  With no trip and
stop not requested, the code moves to `FILLING` and closes the
discharging valve when the low-level sensor reads `true`
(`tank_back_to_low_level` returns the sensor itself), and keeps the
valve open when the sensor reads `false` — the opposite of the claimed
table row. -/
theorem C4_discharging_transition_inverted :
    (plc_cycle { init_state with step := Steps.DISCHARGING_VALVE }
        idle_inputs).step = Steps.DISCHARGING_VALVE ∧
    (plc_cycle { init_state with step := Steps.DISCHARGING_VALVE }
        idle_inputs).outputs.discharging_valve_open = true ∧
    (plc_cycle { init_state with step := Steps.DISCHARGING_VALVE }
        { idle_inputs with ll_lvl_sensor := true, l_lvl_sensor := true
        }).step = Steps.FILLING ∧
    (plc_cycle { init_state with step := Steps.DISCHARGING_VALVE }
        { idle_inputs with ll_lvl_sensor := true, l_lvl_sensor := true
        }).outputs.discharging_valve_open = false := by
  decide

/-- C7: in every cycle the tank-low alarm's `Active` is recomputed as
the falling edge of the low-low sensor (previous stored reading true AND
current reading false), and the edge memory is then updated to the
current reading. -/
theorem C7_tank_low_falling_edge (s : PLCState) (i : Inputs) :
    ((plc_cycle s i).alarms.get Alarms.TANK_TOO_LOW).active =
      (s.last_low_low_sensor_state && !i.ll_lvl_sensor) ∧
    (plc_cycle s i).last_low_low_sensor_state = i.ll_lvl_sensor := by
  constructor
  · rw [plc_cycle_alarms, handle_alarms_alarms]
    cases hr : i.rst_button <;>
      simp [hr, set_alarms, update_alarms_active_state, reset_alarms,
        AlarmSet.get, set_one_active, upd_active, reset_one]
  · rw [plc_cycle_last, handle_alarms_last]

/-! ### The per-alarm register invariant -/

/-- Well-formedness of one alarm register at a cycle boundary:
`Status` is the OR of `Active` and `UnAck`, and an active alarm is
unacknowledged. -/
def good1 (a : AlarmState) : Prop :=
  a.status = (a.active || a.unack) ∧ (a.active = true → a.unack = true)

instance (a : AlarmState) : Decidable (good1 a) := by
  unfold good1
  infer_instance

/-- Well-formedness of all six alarm registers. -/
def goodAlarms (s : PLCState) : Prop :=
  ∀ x : Alarms, good1 (s.alarms.get x)

theorem good1_set_upd (a : AlarmState) (b : Bool) (h : good1 a) :
    good1 (set_one (upd_active a b)) := by
  obtain ⟨act, un, st⟩ := a
  revert h
  revert act un st b
  decide

theorem good1_set_upd_reset (a : AlarmState) (b : Bool) :
    good1 (set_one (upd_active (reset_one a) b)) := by
  obtain ⟨act, un, st⟩ := a
  revert act un st b
  decide

theorem goodAlarms_handle (s : PLCState) (i : Inputs) (h : goodAlarms s) :
    goodAlarms (handle_alarms s i) := by
  have h0 := h Alarms.TANK_TOO_HIGH
  have h1 := h Alarms.TANK_TOO_LOW
  have h2 := h Alarms.TEMP_TOO_HIGH
  have h3 := h Alarms.TEMP_TOO_LOW
  have h4 := h Alarms.DOOR_OPEN
  have h5 := h Alarms.ES_PRESSED
  intro x
  rw [handle_alarms_alarms]
  cases hr : i.rst_button
  · cases x
    all_goals
      simp only [hr, Bool.false_eq_true, if_false, set_alarms,
        update_alarms_active_state, AlarmSet.get]
    · exact good1_set_upd _ _ h0
    · exact good1_set_upd _ _ h1
    · exact good1_set_upd _ _ h2
    · exact good1_set_upd _ _ h3
    · exact good1_set_upd _ _ h4
    · exact good1_set_upd _ _ h5
  · cases x <;>
      simp only [hr, if_true, set_alarms, update_alarms_active_state,
        reset_alarms, AlarmSet.get] <;>
      exact good1_set_upd_reset _ _

theorem goodAlarms_cycle (s : PLCState) (i : Inputs) (h : goodAlarms s) :
    goodAlarms (plc_cycle s i) := by
  intro x
  rw [plc_cycle_alarms]
  exact goodAlarms_handle s i h x

theorem Reachable.good {s : PLCState} (h : Reachable s) : goodAlarms s := by
  induction h with
  | init => intro x; cases x <;> decide
  | step s i _ ih => exact goodAlarms_cycle s i ih

/-- The register of one alarm at the end of a cycle is obtained from its
register at the start of the cycle by the optional reset, the `Active`
overwrite with some Boolean, and the `set_alarms` update. -/
theorem cycle_alarm_shape (s : PLCState) (i : Inputs) (a : Alarms) :
    ∃ b : Bool, (plc_cycle s i).alarms.get a =
      set_one (upd_active
        (if i.rst_button then reset_one (s.alarms.get a)
         else s.alarms.get a) b) := by
  rw [plc_cycle_alarms, handle_alarms_alarms]
  cases hr : i.rst_button <;> cases a <;>
    simp only [hr, Bool.false_eq_true, if_false, if_true, set_alarms,
      update_alarms_active_state, reset_alarms, AlarmSet.get] <;>
    exact ⟨_, rfl⟩

theorem unack_step (a : AlarmState) (b rst : Bool) (hg : good1 a) :
    (a.unack = false →
      (set_one (upd_active (if rst then reset_one a else a) b)).unack = true →
      (set_one (upd_active (if rst then reset_one a else a) b)).active = true) ∧
    (a.unack = true →
      (set_one (upd_active (if rst then reset_one a else a) b)).unack = false →
      rst = true ∧
      (set_one (upd_active (if rst then reset_one a else a) b)).active = false) ∧
    (rst = true → a.active = true →
      (set_one (upd_active (if rst then reset_one a else a) b)).active = true →
      (set_one (upd_active (if rst then reset_one a else a) b)).unack = a.unack ∧
      (set_one (upd_active (if rst then reset_one a else a) b)).status = a.status)
    := by
  obtain ⟨act, un, st⟩ := a
  revert hg
  revert act un st b rst
  decide

/-- C5: in every reachable end-of-cycle state, every alarm's `Status`
equals the OR of its `Active` and `UnAck` attributes. -/
theorem C5_status_is_or (s : PLCState) (h : Reachable s) (a : Alarms) :
    (s.alarms.get a).status =
      ((s.alarms.get a).active || (s.alarms.get a).unack) :=
  (h.good a).1

/-- Witness for C5 at the state reached after one idle cycle. -/
theorem C5_status_is_or_witness :
    ((plc_cycle init_state idle_inputs).alarms.get Alarms.ES_PRESSED).status =
      (((plc_cycle init_state idle_inputs).alarms.get
          Alarms.ES_PRESSED).active ||
       ((plc_cycle init_state idle_inputs).alarms.get
          Alarms.ES_PRESSED).unack) :=
  C5_status_is_or (plc_cycle init_state idle_inputs)
    (Reachable.step init_state idle_inputs Reachable.init) Alarms.ES_PRESSED

/-- C6: across one cycle from a reachable state, an alarm's `UnAck` can
go false→true only when its recomputed `Active` is true, and true→false
only with a reset request while its recomputed `Active` is false; a
reset request in a cycle where the alarm's condition held before and
still holds leaves its `UnAck` and `Status` unchanged. -/
theorem C6_unack_transitions (s : PLCState) (i : Inputs) (a : Alarms)
    (h : Reachable s) :
    ((s.alarms.get a).unack = false →
      ((plc_cycle s i).alarms.get a).unack = true →
      ((plc_cycle s i).alarms.get a).active = true) ∧
    ((s.alarms.get a).unack = true →
      ((plc_cycle s i).alarms.get a).unack = false →
      i.rst_button = true ∧ ((plc_cycle s i).alarms.get a).active = false) ∧
    (i.rst_button = true → (s.alarms.get a).active = true →
      ((plc_cycle s i).alarms.get a).active = true →
      ((plc_cycle s i).alarms.get a).unack = (s.alarms.get a).unack ∧
      ((plc_cycle s i).alarms.get a).status = (s.alarms.get a).status) := by
  obtain ⟨b, hb⟩ := cycle_alarm_shape s i a
  rw [hb]
  exact unack_step (s.alarms.get a) b i.rst_button (h.good a)

/-- Witness for C6 at the initial state and one idle cycle. -/
theorem C6_unack_transitions_witness :
    (((init_state.alarms.get Alarms.ES_PRESSED).unack = false →
      ((plc_cycle init_state idle_inputs).alarms.get
        Alarms.ES_PRESSED).unack = true →
      ((plc_cycle init_state idle_inputs).alarms.get
        Alarms.ES_PRESSED).active = true) ∧
    ((init_state.alarms.get Alarms.ES_PRESSED).unack = true →
      ((plc_cycle init_state idle_inputs).alarms.get
        Alarms.ES_PRESSED).unack = false →
      idle_inputs.rst_button = true ∧
      ((plc_cycle init_state idle_inputs).alarms.get
        Alarms.ES_PRESSED).active = false) ∧
    (idle_inputs.rst_button = true →
      (init_state.alarms.get Alarms.ES_PRESSED).active = true →
      ((plc_cycle init_state idle_inputs).alarms.get
        Alarms.ES_PRESSED).active = true →
      ((plc_cycle init_state idle_inputs).alarms.get
        Alarms.ES_PRESSED).unack =
        (init_state.alarms.get Alarms.ES_PRESSED).unack ∧
      ((plc_cycle init_state idle_inputs).alarms.get
        Alarms.ES_PRESSED).status =
        (init_state.alarms.get Alarms.ES_PRESSED).status)) :=
  C6_unack_transitions init_state idle_inputs Alarms.ES_PRESSED
    Reachable.init

/-! ### Idempotence of alarm evaluation (C8) -/

theorem upd_active_active (a : AlarmState) (b : Bool) :
    (upd_active a b).active = b := rfl

theorem alarm_eval_last (s : PLCState) (i : Inputs) :
    (alarm_eval s i).last_low_low_sensor_state = i.ll_lvl_sensor := rfl

theorem set_one_twice (x : AlarmState) (b c : Bool) (h : c = true → b = true) :
    (set_one (upd_active (set_one (upd_active x b)) c)).unack =
      (set_one (upd_active x b)).unack ∧
    (set_one (upd_active (set_one (upd_active x b)) c)).status =
      (set_one (upd_active x b)).status := by
  obtain ⟨p, q, r⟩ := x
  revert h
  revert p q r b c
  decide

/-- C8 counterexample: alarm evaluation is NOT idempotent for the
tank-low edge detector.  Reachable start: one cycle with the low-low
sensor true stores `true` in the edge memory; then with the sensor false
the first evaluation sets tank-low `Active = true` (falling edge), and a
second evaluation with the same inputs flips it back to `false`. -/
theorem C8_counterexample :
    ((alarm_eval (plc_cycle init_state
        { idle_inputs with ll_lvl_sensor := true })
        idle_inputs).alarms.get Alarms.TANK_TOO_LOW).active = true ∧
    ((alarm_eval (alarm_eval (plc_cycle init_state
        { idle_inputs with ll_lvl_sensor := true })
        idle_inputs) idle_inputs).alarms.get
        Alarms.TANK_TOO_LOW).active = false := by
  decide

/-- C8 (amended): re-running alarm evaluation (`Active` recomputation
followed by the `UnAck`/`Status` update, with no reset) on unchanged
inputs leaves an alarm's `Active`, `UnAck` and `Status` unchanged,
provided that for the tank-low alarm the stored edge memory already
equals the current low-low reading; for the other five alarms the
proviso is vacuous. -/
theorem C8_alarm_eval_idempotent (s : PLCState) (i : Inputs) (a : Alarms)
    (h : a = Alarms.TANK_TOO_LOW →
      s.last_low_low_sensor_state = i.ll_lvl_sensor) :
    ((alarm_eval (alarm_eval s i) i).alarms.get a).active =
      ((alarm_eval s i).alarms.get a).active ∧
    ((alarm_eval (alarm_eval s i) i).alarms.get a).unack =
      ((alarm_eval s i).alarms.get a).unack ∧
    ((alarm_eval (alarm_eval s i) i).alarms.get a).status =
      ((alarm_eval s i).alarms.get a).status := by
  cases a
  case TANK_TOO_LOW =>
    have hll := h rfl
    constructor
    · simp [alarm_eval, set_alarms, update_alarms_active_state,
        AlarmSet.get, set_one_active, upd_active_active, hll]
    · refine set_one_twice _ _ _ ?_
      simp [alarm_eval, set_alarms, update_alarms_active_state]
  all_goals
    refine ⟨by simp [alarm_eval, set_alarms, update_alarms_active_state,
      AlarmSet.get, set_one_active, upd_active_active], ?_⟩
  all_goals
    exact set_one_twice _ _ _ (fun hx => hx)

/-- Witness for C8 (amended) at the initial state, idle inputs and the
tank-low alarm (edge memory and reading both false). -/
theorem C8_alarm_eval_idempotent_witness :
    init_state.last_low_low_sensor_state = idle_inputs.ll_lvl_sensor ∧
    (((alarm_eval (alarm_eval init_state idle_inputs)
        idle_inputs).alarms.get Alarms.TANK_TOO_LOW).active =
      ((alarm_eval init_state idle_inputs).alarms.get
        Alarms.TANK_TOO_LOW).active ∧
    ((alarm_eval (alarm_eval init_state idle_inputs)
        idle_inputs).alarms.get Alarms.TANK_TOO_LOW).unack =
      ((alarm_eval init_state idle_inputs).alarms.get
        Alarms.TANK_TOO_LOW).unack ∧
    ((alarm_eval (alarm_eval init_state idle_inputs)
        idle_inputs).alarms.get Alarms.TANK_TOO_LOW).status =
      ((alarm_eval init_state idle_inputs).alarms.get
        Alarms.TANK_TOO_LOW).status) :=
  ⟨rfl, C8_alarm_eval_idempotent init_state idle_inputs
    Alarms.TANK_TOO_LOW (fun _ => rfl)⟩

/-! ### Error-branch reactions (C9) and the normal-branch gate frame (C10) -/

/-- C9: in a cycle that executes the error branch, the outputs are the
step-keyed reaction: `ERROR_A0`/`ERROR_A5` stop the three actuators and
force the gate open; `ERROR_A1`/`ERROR_A4` stop the three actuators and
leave the gate output as it was; `ERROR_A2` turns heating off and opens
the gate, leaving both valves as they were; `ERROR_A3` closes the
filling valve and opens the gate, leaving heating and the discharging
valve as they were. -/
theorem C9_error_reactions (s : PLCState) (i : Inputs)
    (h : (handle_alarms s i).trip = true) :
    ((handle_alarms s i).step = Steps.ERROR_A0 ∨
      (handle_alarms s i).step = Steps.ERROR_A5 →
      (plc_cycle s i).outputs =
        { filling_valve_open := false, discharging_valve_open := false,
          heating_on := false, discharging_gate_open := true }) ∧
    ((handle_alarms s i).step = Steps.ERROR_A1 ∨
      (handle_alarms s i).step = Steps.ERROR_A4 →
      (plc_cycle s i).outputs =
        { filling_valve_open := false, discharging_valve_open := false,
          heating_on := false,
          discharging_gate_open := s.outputs.discharging_gate_open }) ∧
    ((handle_alarms s i).step = Steps.ERROR_A2 →
      (plc_cycle s i).outputs =
        { filling_valve_open := s.outputs.filling_valve_open,
          discharging_valve_open := s.outputs.discharging_valve_open,
          heating_on := false, discharging_gate_open := true }) ∧
    ((handle_alarms s i).step = Steps.ERROR_A3 →
      (plc_cycle s i).outputs =
        { filling_valve_open := false,
          discharging_valve_open := s.outputs.discharging_valve_open,
          heating_on := s.outputs.heating_on,
          discharging_gate_open := true }) := by
  have ho := handle_alarms_outputs s i
  refine ⟨?_, ?_, ?_, ?_⟩
  · rintro (h0 | h0) <;> rw [plc_cycle_outputs, h, h0, ho] <;> rfl
  · rintro (h0 | h0) <;> rw [plc_cycle_outputs, h, h0, ho] <;> rfl
  · intro h0; rw [plc_cycle_outputs, h, h0, ho]; rfl
  · intro h0; rw [plc_cycle_outputs, h, h0, ho]; rfl

/-- Witness for C9: the emergency button pressed from the initial state
trips into `ERROR_A5`. -/
theorem C9_error_reactions_witness :
    (handle_alarms init_state
        { idle_inputs with es_button := true }).trip = true ∧
    (((handle_alarms init_state
        { idle_inputs with es_button := true }).step = Steps.ERROR_A0 ∨
      (handle_alarms init_state
        { idle_inputs with es_button := true }).step = Steps.ERROR_A5 →
      (plc_cycle init_state
        { idle_inputs with es_button := true }).outputs =
        { filling_valve_open := false, discharging_valve_open := false,
          heating_on := false, discharging_gate_open := true }) ∧
    ((handle_alarms init_state
        { idle_inputs with es_button := true }).step = Steps.ERROR_A1 ∨
      (handle_alarms init_state
        { idle_inputs with es_button := true }).step = Steps.ERROR_A4 →
      (plc_cycle init_state
        { idle_inputs with es_button := true }).outputs =
        { filling_valve_open := false, discharging_valve_open := false,
          heating_on := false,
          discharging_gate_open :=
            init_state.outputs.discharging_gate_open }) ∧
    ((handle_alarms init_state
        { idle_inputs with es_button := true }).step = Steps.ERROR_A2 →
      (plc_cycle init_state
        { idle_inputs with es_button := true }).outputs =
        { filling_valve_open := init_state.outputs.filling_valve_open,
          discharging_valve_open :=
            init_state.outputs.discharging_valve_open,
          heating_on := false, discharging_gate_open := true }) ∧
    ((handle_alarms init_state
        { idle_inputs with es_button := true }).step = Steps.ERROR_A3 →
      (plc_cycle init_state
        { idle_inputs with es_button := true }).outputs =
        { filling_valve_open := false,
          discharging_valve_open :=
            init_state.outputs.discharging_valve_open,
          heating_on := init_state.outputs.heating_on,
          discharging_gate_open := true })) :=
  ⟨by decide, C9_error_reactions init_state
    { idle_inputs with es_button := true } (by decide)⟩

/-- C10: a cycle whose alarm handling leaves `trip = false` never
changes the discharging-gate output: the normal branch (including the
stop override) writes only the filling valve, heating and discharging
valve. -/
theorem C10_normal_branch_gate_frame (s : PLCState) (i : Inputs)
    (h : (handle_alarms s i).trip = false) :
    (plc_cycle s i).outputs.discharging_gate_open =
      s.outputs.discharging_gate_open := by
  rw [plc_cycle_outputs, h, handle_alarms_outputs]
  unfold grafcet
  simp only [Bool.false_eq_true, if_false]
  by_cases hs : stop_requested i = true
  · rw [if_pos hs]
    rfl
  · rw [if_neg hs]
    cases hstep : (handle_alarms s i).step <;>
      first
        | rfl
        | (split_ifs <;> rfl)

/-- Witness for C10: an idle cycle from the initial state does not trip
and leaves the gate output where it was. -/
theorem C10_normal_branch_gate_frame_witness :
    (handle_alarms init_state idle_inputs).trip = false ∧
    (plc_cycle init_state idle_inputs).outputs.discharging_gate_open =
      init_state.outputs.discharging_gate_open :=
  ⟨by decide, C10_normal_branch_gate_frame init_state idle_inputs
    (by decide)⟩
